import Mathlib

/-!
Verification of the moltbot relay core against its design specification.

The development shallowly embeds the session-store data model, the in-band
directive command language (queue, verbose, elevated, think), the model /
provider resolution logic of `src/auto-reply/reply/model-selection.ts`, and
the reconnect backoff policy.  Strings are processed with executable
character-list primitives so that every definition evaluates inside the
kernel.
-/

/-! ### Executable string primitives -/

/-- String from a character list. -/

def strOf (l : List Char) : String := ⟨l⟩

/-- Trim ASCII/unicode whitespace from both ends, like `String.trim`. -/

def strTrim (s : String) : String :=
  strOf (((s.data.dropWhile Char.isWhitespace).reverse.dropWhile Char.isWhitespace).reverse)

/-- Lower-case every character, like `String.toLower`. -/

def strLower (s : String) : String := strOf (s.data.map Char.toLower)

/-- Does `s` start with `p`? -/

def strStarts (s p : String) : Bool := p.data.isPrefixOf s.data

/-- Does `s` end with `p`? -/

def strEnds (s p : String) : Bool := p.data.isSuffixOf s.data

/-- Drop the first `n` characters. -/

def strDropN (s : String) (n : Nat) : String := strOf (s.data.drop n)

/-- Drop the last `n` characters. -/

def strDropRightN (s : String) (n : Nat) : String := strOf ((s.data.reverse.drop n).reverse)

/-- Is `needle` a contiguous sublist of `hay`? -/

def listSub (needle hay : List Char) : Bool :=
  match hay with
  | [] => needle.isEmpty
  | _ :: t => needle.isPrefixOf hay || listSub needle t

/-- JavaScript `String.prototype.includes`: substring containment. -/

def strIncludes (s sub : String) : Bool := listSub sub.data s.data

/-- Does the string contain the character `c`? -/

def strHasChar (s : String) (c : Char) : Bool := s.data.contains c

/-- Split a character list at every occurrence of `c` (keeping empty pieces). -/

def splitCharList (c : Char) : List Char → List (List Char)
  | [] => [[]]
  | h :: t =>
    let r := splitCharList c t
    if h = c then [] :: r
    else
      match r with
      | x :: xs => (h :: x) :: xs
      | [] => [[h]]

/-- Split a string at every occurrence of the character `c`. -/

def strSplit (s : String) (c : Char) : List String := (splitCharList c s.data).map strOf

/-- Join strings with a separator, like `String.intercalate`. -/

def strJoin (sep : String) : List String → String
  | [] => ""
  | [x] => x
  | x :: xs => x ++ sep ++ strJoin sep xs

/-- Numeric value of a digit list (assumes digits). -/

def digitsToNat (l : List Char) : Nat := l.foldl (fun a c => a * 10 + (c.toNat - '0'.toNat)) 0

/-- Parse a non-empty all-digit string into a natural number, like `String.toNat?`. -/

def parseNat (s : String) : Option Nat :=
  if s.data ≠ [] ∧ s.data.all Char.isDigit then some (digitsToNat s.data) else none

/-! ### Session store data model

From §3 of the spec and the `SessionEntry` shape observed throughout
`src/auto-reply/reply/model-selection.ts` and `reply.directive.test.ts`:
override fields, mode fields and queue configuration fields are all optional,
absence meaning "use configured default". -/

structure SessionEntry where
  sessionId : Option String := none
  updatedAt : Nat := 0
  modelOverride : Option String := none
  providerOverride : Option String := none
  authProfileOverride : Option String := none
  verboseLevel : Option String := none
  elevatedLevel : Option String := none
  thinkingLevel : Option String := none
  reasoningLevel : Option String := none
  queueMode : Option String := none
  queueDebounceMs : Option Nat := none
  queueCap : Option Nat := none
  queueDrop : Option String := none
  deriving Repr, DecidableEq, Inhabited

/-- The session store: an association list from session key to entry. -/

abbrev SessionStore := List (String × SessionEntry)

/-- Read an entry from the store. -/

def storeGet (st : SessionStore) (k : String) : Option SessionEntry := List.lookup k st

/-- Write an entry into the store (replacing any previous binding of `k`). -/

def storeSet (st : SessionStore) (k : String) (e : SessionEntry) : SessionStore :=
  (k, e) :: st.filter (fun p => !(p.1 == k))

/-! ### Queue directive

Modelled from the spec: the directive engine (`reply.ts`) is not under
`src/`; the `queue` command's grammar and validation come from §4.2/§4.4
("queue <mode> [debounce:<duration>] [cap:<n>] [drop:<policy>] | reset",
duration in ms or with `s`/`m` suffix, positive cap, drop old|new|summarize,
accumulable error messages) and from the concrete acknowledgement / error
strings asserted in `reply.directive.test.ts`. -/

def queueModes : List String := ["steer", "followup", "collect", "steer+backlog", "interrupt"]

def dropPolicies : List String := ["old", "new", "summarize"]

/-- Parse a debounce duration: a plain integer is milliseconds; an `ms`, `s`
or `m` suffix scales accordingly. -/

def parseDebounce (s : String) : Option Nat :=
  if strEnds s "ms" then parseNat (strDropRightN s 2)
  else if strEnds s "s" then (parseNat (strDropRightN s 1)).map (· * 1000)
  else if strEnds s "m" then (parseNat (strDropRightN s 1)).map (· * 60000)
  else parseNat s

/-- A parsed queue option token. -/

inductive QueueTok where
  | debounce (ms : Nat)
  | cap (n : Nat)
  | dropPolicy (p : String)
  | bad (msg : String)
  deriving Repr, DecidableEq

/-- Parse one `debounce:`/`cap:`/`drop:` option token, producing a named error
message for each invalid token. -/

def parseQueueToken (t : String) : QueueTok :=
  if strStarts t "debounce:" then
    let v := strDropN t 9
    match parseDebounce v with
    | some ms => .debounce ms
    | none => .bad ("Invalid debounce: " ++ v)
  else if strStarts t "cap:" then
    let v := strDropN t 4
    match parseNat v with
    | some n => if 0 < n then .cap n else .bad ("Invalid cap: " ++ v)
    | none => .bad ("Invalid cap: " ++ v)
  else if strStarts t "drop:" then
    let v := strDropN t 5
    if dropPolicies.contains v then .dropPolicy v else .bad ("Invalid drop policy: " ++ v)
  else .bad ("Invalid queue option: " ++ t)

/-- The error message a queue option token contributes, if any. -/

def queueTokError : QueueTok → Option String
  | .bad m => some m
  | _ => none

/-- Apply one valid queue option to the session entry. -/

def applyQueueTok (e : SessionEntry) : QueueTok → SessionEntry
  | .debounce ms => { e with queueDebounceMs := some ms }
  | .cap n => { e with queueCap := some n }
  | .dropPolicy p => { e with queueDrop := some p }
  | .bad _ => e

/-- The acknowledgement a valid queue option contributes. -/

def queueTokAck : QueueTok → Option String
  | .debounce ms => some ("Queue debounce set to " ++ toString ms ++ "ms.")
  | .cap n => some ("Queue cap set to " ++ toString n ++ ".")
  | .dropPolicy p => some ("Queue drop set to " ++ p ++ ".")
  | .bad _ => none

/-- Result of executing a queue directive: the (possibly mutated) entry, the
acknowledgement lines and the accumulated error lines of one response. -/

structure QueueDirectiveResult where
  entry : SessionEntry
  acks : List String
  errors : List String
  deriving Repr, DecidableEq

/-- One line summarising the current queue settings (shown for a bare `queue`). -/

def queueSettingsLine (e : SessionEntry) : String :=
  "Current queue settings: mode=" ++ (e.queueMode.getD "default") ++ "."

/-- Execute a `queue` directive given its whitespace-separated argument tokens.
Validation happens before mutation: if any token is invalid, every error is
reported together and the entry is left untouched.  `reset` clears all four
queue fields. -/

def execQueueToks (entry : SessionEntry) (toks : List String) : QueueDirectiveResult :=
  match toks with
  | [] => { entry := entry, acks := [queueSettingsLine entry], errors := [] }
  | mode :: opts =>
    if mode = "reset" then
      { entry := { entry with queueMode := none, queueDebounceMs := none,
                              queueCap := none, queueDrop := none },
        acks := ["Queue mode reset to default."], errors := [] }
    else
      let parsed := opts.map parseQueueToken
      let errors := (if queueModes.contains mode then [] else ["Invalid queue mode: " ++ mode])
        ++ parsed.filterMap queueTokError
      if errors = [] then
        { entry := parsed.foldl applyQueueTok { entry with queueMode := some mode },
          acks := ("Queue mode set to " ++ mode ++ ".") :: parsed.filterMap queueTokAck,
          errors := [] }
      else
        { entry := entry, acks := [], errors := errors }

/-- Execute a `queue` directive given its raw argument string. -/

def execQueueDirective (entry : SessionEntry) (args : String) : QueueDirectiveResult :=
  execQueueToks entry ((strSplit args ' ').filter (fun t => t ≠ ""))

/-! ### Model / provider resolution

Shallow embedding of `src/auto-reply/reply/model-selection.ts`.  The helpers
imported there from `agents/model-selection.ts` (`modelKey`,
`normalizeProviderId`, `resolveModelRefFromString`, `buildAllowedModelSet`)
are not under `src/`, so `modelKey` / `normalizeProviderId` are modelled from
the spec below and `resolveModelRefFromString` is passed in as a function
argument (with a spec-modelled exact resolver provided for concrete runs). -/

/-- A `(provider, model)` reference. -/

structure ModelRef where
  provider : String
  model : String
  deriving Repr, DecidableEq

/-- Modelled from the spec: `normalizeProviderId` (from the missing
`agents/model-selection.ts`); provider ids compare case-insensitively. -/

def normalizeProviderId (s : String) : String := strLower s

/-- Modelled from the spec: `modelKey` (from the missing
`agents/model-selection.ts`) builds the allowlist key `provider/model`. -/

def modelKey (provider model : String) : String := normalizeProviderId provider ++ "/" ++ model

/-- The alias index: exact alias -> reference, and key -> configured aliases. -/

structure ModelAliasIndex where
  byAlias : List (String × ModelRef)
  byKey : List (String × List String)
  deriving Repr, DecidableEq

/-- The selection returned on a successful model directive resolution. -/

structure ModelDirectiveSelection where
  provider : String
  model : String
  isDefault : Bool
  aliasName : Option String := none
  deriving Repr, DecidableEq

/-- Result of `resolveModelRefFromString`: a reference plus the alias it was
reached through, if any. -/

structure ResolvedRef where
  ref : ModelRef
  aliasName : Option String := none
  deriving Repr, DecidableEq

/-- Outcome of the `{ selection?, error? }` result objects in the source: no
match at all, a selection, or an error string. -/

inductive ResolveOutcome where
  | noMatch
  | ok (s : ModelDirectiveSelection)
  | err (e : String)
  deriving Repr, DecidableEq

/-- `pickAliasForKey` of `resolveModelDirectiveSelection`: the first configured
alias for a key, if any. -/

def pickAliasForKey (ai : ModelAliasIndex) (provider model : String) : Option String :=
  (List.lookup (modelKey provider model) ai.byKey).bind List.head?

/-- `buildSelection` of `resolveModelDirectiveSelection`. -/

def buildSelection (ai : ModelAliasIndex) (dP dM provider model : String) :
    ModelDirectiveSelection :=
  { provider := provider, model := model,
    isDefault := provider == dP && model == dM,
    aliasName := pickAliasForKey ai provider model }

/-- The candidate an allowlist key contributes inside `resolveFuzzy`: keys with
no slash or a leading slash are skipped, an optional provider scope filters by
normalized provider, and the fragment must occur in `provider/model` or in the
model name (case-insensitively). -/

def fuzzyKeyCandidate (provScope : Option String) (fragment : String) (key : String) :
    Option ModelRef :=
  match strSplit key '/' with
  | [] => none
  | [_] => none
  | p :: rest =>
    if p = "" then none
    else
      let provider := normalizeProviderId p
      let model := strJoin "/" rest
      let scopeOk := match provScope with
        | some q => provider == normalizeProviderId q
        | none => true
      if scopeOk then
        let haystack := strLower (provider ++ "/" ++ model)
        if strIncludes haystack fragment || strIncludes (strLower model) fragment then
          some { provider := provider, model := model }
        else none
      else none

/-- The candidate list built by `resolveFuzzy`: allowlist matches in order,
then (only when no provider was stated) alias-fragment matches restricted to
the allowlist and deduplicated against earlier candidates. -/

def fuzzyCandidates (allowedModelKeys : List String) (ai : ModelAliasIndex)
    (provScope : Option String) (fragment : String) : List ModelRef :=
  let base := allowedModelKeys.filterMap (fuzzyKeyCandidate provScope fragment)
  match provScope with
  | some _ => base
  | none =>
    let aliasMatches := ai.byAlias.filterMap
      (fun e => if strIncludes e.1 fragment then some e.2 else none)
    aliasMatches.foldl
      (fun acc m =>
        if !(allowedModelKeys.contains (modelKey m.provider m.model)) then acc
        else if acc.any (fun c => c.provider == m.provider && c.model == m.model) then acc
        else acc ++ [m])
      base

/-- The ambiguity error of `resolveFuzzy`: up to 5 candidates shown as
`provider/model`, with a `(+k more)` remainder when truncated. -/

def ambiguousModelMsg (rawTrimmed : String) (cands : List ModelRef) : String :=
  "Ambiguous model \"" ++ rawTrimmed ++ "\". Matches: "
    ++ strJoin ", " ((cands.take 5).map (fun c => c.provider ++ "/" ++ c.model))
    ++ (if 5 < cands.length then " (+" ++ toString (cands.length - 5) ++ " more)" else "")
    ++ ". Use /model to list or specify provider/model."

/-- `resolveFuzzy` of `resolveModelDirectiveSelection`: an empty fragment or
zero candidates yield no match, one candidate yields a selection, several
yield the ambiguity error. -/

def resolveFuzzy (allowedModelKeys : List String) (ai : ModelAliasIndex)
    (dP dM rawTrimmed : String) (provScope : Option String) (fragRaw : String) :
    ResolveOutcome :=
  let fragment := strLower (strTrim fragRaw)
  if fragment = "" then .noMatch
  else
    match fuzzyCandidates allowedModelKeys ai provScope fragment with
    | [] => .noMatch
    | [m] => .ok (buildSelection ai dP dM m.provider m.model)
    | c1 :: c2 :: rest => .err (ambiguousModelMsg rawTrimmed (c1 :: c2 :: rest))

/-- The provider-scoped fuzzy fallback of `resolveModelDirectiveSelection`:
when the raw reference contains a slash, retry fuzzily within the stated
provider using the part after the first slash as fragment. -/

def providerScopedFuzzy (allowedModelKeys : List String) (ai : ModelAliasIndex)
    (dP dM rawTrimmed : String) : ResolveOutcome :=
  match strSplit rawTrimmed '/' with
  | [] => .noMatch
  | [_] => .noMatch
  | p :: rest =>
    let provider := normalizeProviderId (strTrim p)
    let fragment := strTrim (strJoin "/" rest)
    resolveFuzzy allowedModelKeys ai dP dM rawTrimmed (some provider) fragment

/-- `resolveModelDirectiveSelection` of `model-selection.ts`, with the missing
`resolveModelRefFromString` passed in as `resolveRef`.  Resolution order:
exact/alias resolution, allowlist check, provider-scoped fuzzy fallback,
allowlist-wide fuzzy fallback, then the unrecognized / not-allowed errors. -/

def resolveModelDirectiveSelection (resolveRef : String → Option ResolvedRef)
    (raw dP dM : String) (ai : ModelAliasIndex) (allowedModelKeys : List String) :
    ResolveOutcome :=
  let rawTrimmed := strTrim raw
  match resolveRef rawTrimmed with
  | none =>
    match resolveFuzzy allowedModelKeys ai dP dM rawTrimmed none rawTrimmed with
    | .noMatch => .err ("Unrecognized model \"" ++ rawTrimmed
        ++ "\". Use /model to list available models.")
    | out => out
  | some resolved =>
    if allowedModelKeys.isEmpty
        || allowedModelKeys.contains (modelKey resolved.ref.provider resolved.ref.model) then
      .ok { provider := resolved.ref.provider, model := resolved.ref.model,
            isDefault := resolved.ref.provider == dP && resolved.ref.model == dM,
            aliasName := resolved.aliasName }
    else
      match providerScopedFuzzy allowedModelKeys ai dP dM rawTrimmed with
      | .noMatch =>
        match resolveFuzzy allowedModelKeys ai dP dM rawTrimmed none rawTrimmed with
        | .noMatch => .err ("Model \"" ++ resolved.ref.provider ++ "/" ++ resolved.ref.model
            ++ "\" is not allowed. Use /model to list available models.")
        | out => out
      | out => out

/-- Modelled from the spec: `resolveModelRefFromString` (from the missing
`agents/model-selection.ts`), steps 1-2 of the resolution order in spec §4.3 —
exact `provider/model` or bare `model` (defaulting the provider) match against
the catalog, then exact, case-sensitive, trimmed alias match.  Vendor
shorthand normalization is not modelled. -/

def exactResolve (catalog : List ModelRef) (ai : ModelAliasIndex) (dP : String)
    (raw : String) : Option ResolvedRef :=
  let t := strTrim raw
  let viaCatalog : Option ResolvedRef :=
    match strSplit t '/' with
    | [] => none
    | [_] =>
      if catalog.any (fun c =>
          normalizeProviderId c.provider == normalizeProviderId dP && c.model == t) then
        some { ref := { provider := normalizeProviderId dP, model := t } }
      else none
    | p :: rest =>
      let m := strJoin "/" rest
      if catalog.any (fun c =>
          normalizeProviderId c.provider == normalizeProviderId p && c.model == m) then
        some { ref := { provider := normalizeProviderId p, model := m } }
      else none
  match viaCatalog with
  | some r => some r
  | none =>
    match List.lookup t ai.byAlias with
    | some ref => some { ref := ref, aliasName := some t }
    | none => none

/-! ### createModelSelectionState

Embedding of `createModelSelectionState` from
`src/auto-reply/reply/model-selection.ts` (lines 35-168).  The model catalog
and `buildAllowedModelSet` helpers are not under `src/`, so the allowed set
they would produce is passed in and used exactly where the source consults it
(only when `needsModelCatalog`); `ensureAuthProfileStore` is likewise
modelled as a name-to-provider map.  `Date.now()` is modelled by the `now`
parameter and `saveSessionStore` by the `savedStore` flag (a save happens
only when a `storePath` is provided). -/

/-- JavaScript truthiness of an optional string (undefined and "" are falsy). -/

def optTruthy : Option String → Bool
  | some s => !(s == "")
  | none => false

/-- JavaScript `x || dflt` on an optional string. -/

def truthyOr (o : Option String) (dflt : String) : String :=
  match o with
  | some s => if s = "" then dflt else s
  | none => dflt

/-- The allowed key set / catalog produced by `buildAllowedModelSet` (modelled
input: that helper is not under `src/`). -/

structure AllowedModelSet where
  allowedKeys : List String := []
  allowedCatalog : List ModelRef := []
  deriving Repr, DecidableEq

/-- Parameters of `createModelSelectionState`; `agentModels` holds the keys of
`agentCfg?.models` when configured. -/

structure CreateStateParams where
  agentModels : Option (List String) := none
  sessionEntry : Option SessionEntry := none
  sessionStore : Option SessionStore := none
  sessionKey : Option String := none
  storePath : Option String := none
  defaultProvider : String := ""
  defaultModel : String := ""
  provider : String := ""
  model : String := ""
  hasModelDirective : Bool := false

/-- Result of `createModelSelectionState` (the lazy thinking-level closure of
the source carries no session state and is not embedded). -/

structure CreateStateResult where
  provider : String
  model : String
  allowedModelKeys : List String
  resetModelOverride : Bool
  sessionEntry : Option SessionEntry
  sessionStore : Option SessionStore
  savedStore : Bool
  needsModelCatalog : Bool
  deriving Repr, DecidableEq

/-- Source lines 89-106: when the stored override's key is not in the
non-empty allowed set, delete both overrides, refresh `updatedAt`, write the
entry back and persist the store. -/

def reconcileStoredOverride (allowedModelKeys : List String) (dP : String) (now : Nat)
    (hasStoredOverride : Bool) (storePath : Option String) :
    Option SessionEntry → Option SessionStore → Option String →
    Option SessionEntry × Option SessionStore × Bool × Bool
  | some e, some st, some k =>
    if hasStoredOverride then
      let overrideProvider := truthyOr (e.providerOverride.map strTrim) dP
      match e.modelOverride.map strTrim with
      | some m0 =>
        if m0 ≠ "" then
          if !allowedModelKeys.isEmpty
              && !(allowedModelKeys.contains (modelKey overrideProvider m0)) then
            let e2 := { e with providerOverride := none, modelOverride := none, updatedAt := now }
            (some e2, some (storeSet st k e2), storePath.isSome, true)
          else (some e, some st, false, false)
        else (some e, some st, false, false)
      | none => (some e, some st, false, false)
    else (some e, some st, false, false)
  | e, st, _ => (e, st, false, false)

/-- Core of source lines 108-117, over the already-trimmed stored overrides:
apply a stored override to the effective provider/model when the allowed set
is empty or contains its key. -/

def effSelCore (allowedModelKeys : List String) (dP prov md : String)
    (storedProviderOverride storedModelOverride : Option String) : String × String :=
  match storedModelOverride with
  | some m0 =>
    if m0 ≠ "" then
      let candidateProvider := truthyOr storedProviderOverride dP
      if allowedModelKeys.isEmpty
          || allowedModelKeys.contains (modelKey candidateProvider m0) then
        (candidateProvider, m0)
      else (prov, md)
    else (prov, md)
  | none => (prov, md)

/-- Source lines 108-117: apply a stored override to the effective
provider/model when the allowed set is empty or contains its key. -/

def effectiveOverrideSelection (allowedModelKeys : List String) (dP prov md : String)
    (entryOpt : Option SessionEntry) : String × String :=
  effSelCore allowedModelKeys dP prov md
    ((entryOpt.bind (fun e => e.providerOverride)).map strTrim)
    ((entryOpt.bind (fun e => e.modelOverride)).map strTrim)

/-- Source lines 119-140: clear a stored auth-profile override whose profile
is missing or belongs to a different provider than the effective one. -/

def reconcileAuthProfile (authProfiles : List (String × String)) (now : Nat)
    (provider : String) (storePath : Option String) :
    Option SessionEntry → Option SessionStore → Option String →
    Option SessionEntry × Option SessionStore × Bool
  | some e, some st, some k =>
    if optTruthy e.authProfileOverride then
      let name := e.authProfileOverride.getD ""
      match List.lookup name authProfiles with
      | some profileProvider =>
        if profileProvider ≠ provider then
          let e2 := { e with authProfileOverride := none, updatedAt := now }
          (some e2, some (storeSet st k e2), storePath.isSome)
        else (some e, some st, false)
      | none =>
        let e2 := { e with authProfileOverride := none, updatedAt := now }
        (some e2, some (storeSet st k e2), storePath.isSome)
    else (some e, some st, false)
  | e, st, _ => (e, st, false)

/-- `agentCfg?.models && Object.keys(agentCfg.models).length > 0`. -/

def agentHasAllowlist : Option (List String) → Bool
  | some ks => !ks.isEmpty
  | none => false

/-- `Boolean(sessionEntry?.modelOverride || sessionEntry?.providerOverride)`. -/

def entryHasStoredOverride : Option SessionEntry → Bool
  | some e => optTruthy e.modelOverride || optTruthy e.providerOverride
  | none => false

/-- `createModelSelectionState` of `model-selection.ts`. -/

def createModelSelectionState (allowed : AllowedModelSet)
    (authProfiles : List (String × String)) (now : Nat) (p : CreateStateParams) :
    CreateStateResult :=
  let hasAllowlist := agentHasAllowlist p.agentModels
  let hasStoredOverride := entryHasStoredOverride p.sessionEntry
  let needsModelCatalog := p.hasModelDirective || hasAllowlist || hasStoredOverride
  let allowedModelKeys := if needsModelCatalog then allowed.allowedKeys else []
  let step1 := reconcileStoredOverride allowedModelKeys p.defaultProvider now
    hasStoredOverride p.storePath p.sessionEntry p.sessionStore p.sessionKey
  let pm := effectiveOverrideSelection allowedModelKeys p.defaultProvider
    p.provider p.model step1.1
  let step2 := reconcileAuthProfile authProfiles now pm.1 p.storePath
    step1.1 step1.2.1 p.sessionKey
  { provider := pm.1, model := pm.2,
    allowedModelKeys := allowedModelKeys,
    resetModelOverride := step1.2.2.2,
    sessionEntry := step2.1,
    sessionStore := step2.2.1,
    savedStore := step1.2.2.1 || step2.2.2,
    needsModelCatalog := needsModelCatalog }

/-- The stored entry of the C10 witness scenario: an `openai/gpt-4` override. -/

def demoOverrideEntry : SessionEntry :=
  { updatedAt := 5, modelOverride := some "gpt-4", providerOverride := some "openai" }

/-- The session store of the C10 witness scenario. -/

def demoOverrideStore : SessionStore := [("agent:main:main", demoOverrideEntry)]

/-- The allowed set of the C10 witness scenario. -/

def demoAllowedSet : AllowedModelSet :=
  { allowedKeys := ["anthropic/claude-opus-4-5"], allowedCatalog := [] }

/-- The parameters of the C10 witness scenario. -/

def demoCreateParams : CreateStateParams :=
  { agentModels := some ["anthropic/claude-opus-4-5"],
    sessionEntry := some demoOverrideEntry,
    sessionStore := some demoOverrideStore,
    sessionKey := some "agent:main:main",
    storePath := some "sessions.json",
    defaultProvider := "anthropic", defaultModel := "claude-opus-4-5",
    provider := "anthropic", model := "claude-opus-4-5",
    hasModelDirective := false }

/-! ### Directive engine, run-coordinator live flags and elevated checks

Modelled from the spec: `reply.ts` (directive scanning/execution and the run
coordinator) is not under `src/`.  The message is modelled as the scanner's
output — a sequence of free-text and directive segments — with execution
policy taken from §4.2/§4.5 and pinned by `reply.directive.test.ts`:
directive-only messages execute every directive in order and return the
acknowledgements without invoking an agent; a message with residual free text
forwards the stripped residual for an agent turn, applies an inline think
level to that run only, and does not persist inline elevated/model overrides
("strips inline elevated directives from the user text (does not persist
session override)", "ignores inline /model and uses the default model"). -/

/-- The configuration the directive engine consults for elevated mode. -/

structure DirectiveCtx where
  elevatedEnabled : Bool := true
  elevatedGlobalAllow : List String := []
  elevatedAgentAllow : Option (List String) := none
  sender : String := ""
  verboseDefault : Bool := false
  deriving Repr, DecidableEq

/-- Modelled from the spec: the elevated-mode start-up check of §4.5 — the
capability must be enabled for the addressed agent, and the sender must be on
the global and (when one is configured) the per-agent elevated allowlist;
each failure carries a message naming the missing requirement (the
requirement paths come from `reply.directive.test.ts`). -/

def checkElevatedOn (ctx : DirectiveCtx) : Except String Unit :=
  if !ctx.elevatedEnabled then
    .error "Elevated is disabled for this agent (agents.list[].tools.elevated.enabled)."
  else if !(ctx.elevatedGlobalAllow.contains ctx.sender) then
    .error "Sender not in the global elevated allowlist (tools.elevated.allowFrom.whatsapp)."
  else
    match ctx.elevatedAgentAllow with
    | some l =>
      if !(l.contains ctx.sender) then
        .error "Sender not in the per-agent elevated allowlist (agents.list[].tools.elevated.allowFrom.whatsapp)."
      else .ok ()
    | none => .ok ()

def thinkLevels : List String := ["off", "minimal", "low", "medium", "high"]

/-- A directive extracted from the message text (command plus raw arguments). -/

inductive Directive where
  | queue (args : List String)
  | verbose (arg : Option String)
  | elevated (arg : Option String)
  | think (arg : Option String)
  deriving Repr, DecidableEq

/-- One segment of the scanned message: residual free text or a directive. -/

inductive MsgSeg where
  | txt (s : String)
  | dir (d : Directive)
  deriving Repr, DecidableEq

def segText : MsgSeg → Option String
  | .txt s => some s
  | .dir _ => none

def segDir : MsgSeg → Option Directive
  | .dir d => some d
  | .txt _ => none

/-- The residual text: non-directive segments, trimmed and concatenated. -/

def residualOf (segs : List MsgSeg) : String :=
  strTrim (strJoin "\n" ((segs.filterMap segText).map strTrim))

/-- Execute one directive against the session entry, producing the new entry
and an acknowledgement (or error) line. -/

def execDirective (ctx : DirectiveCtx) (e : SessionEntry) : Directive → SessionEntry × String
  | .queue args =>
    let r := execQueueToks e args
    (r.entry, strJoin "\n" (r.acks ++ r.errors))
  | .verbose (some "on") => ({ e with verboseLevel := some "on" }, "Verbose logging enabled.")
  | .verbose (some "off") => ({ e with verboseLevel := some "off" }, "Verbose logging disabled.")
  | .verbose (some other) => (e, "Unrecognized verbose level: " ++ other)
  | .verbose none => (e, "Current verbose level: " ++ (e.verboseLevel.getD "default"))
  | .elevated (some "on") =>
    match checkElevatedOn ctx with
    | .ok _ => ({ e with elevatedLevel := some "on" }, "Elevated mode enabled.")
    | .error msg => (e, msg)
  | .elevated (some "off") => ({ e with elevatedLevel := some "off" }, "Elevated mode disabled.")
  | .elevated (some other) => (e, "Unrecognized elevated level: " ++ other)
  | .elevated none => (e, "Current elevated level: " ++ (e.elevatedLevel.getD "default"))
  | .think (some l) =>
    if thinkLevels.contains l then ({ e with thinkingLevel := some l }, "Thinking level set to " ++ l ++ ".")
    else (e, "Unrecognized think level: " ++ l)
  | .think none => (e, "Current thinking level: " ++ (e.thinkingLevel.getD "default"))

/-- Execute a list of directives in textual order, accumulating their
acknowledgements in the same order. -/

def execDirectives (ctx : DirectiveCtx) (entry : SessionEntry) (dirs : List Directive) :
    SessionEntry × List String :=
  dirs.foldl
    (fun acc d =>
      let r := execDirective ctx acc.1 d
      (r.1, acc.2 ++ [r.2]))
    (entry, [])

/-- Result of processing one inbound message. -/

structure EngineResult where
  entry : SessionEntry
  acks : List String
  residualText : String
  agentCalled : Bool
  payloads : List String
  runThink : Option String
  deriving Repr, DecidableEq

/-- The inline think level a mixed message applies to the current run. -/

def inlineThinkOf (dirs : List Directive) : Option String :=
  (dirs.filterMap
    (fun d => match d with
      | .think (some l) => if thinkLevels.contains l then some l else none
      | _ => none)).getLast?

/-- Process one inbound message (as scanned segments): a directive-only
message executes every directive in order and returns the acknowledgements
without an agent turn; a message with residual free text forwards the
stripped residual to the agent, applying an inline think level to that run
only and leaving the session entry untouched. -/

def processMessage (ctx : DirectiveCtx) (agent : String → String) (entry : SessionEntry)
    (segs : List MsgSeg) : EngineResult :=
  let resid := residualOf segs
  let dirs := segs.filterMap segDir
  if resid = "" then
    let folded := execDirectives ctx entry dirs
    { entry := folded.1, acks := folded.2, residualText := "",
      agentCalled := false, payloads := folded.2, runThink := none }
  else
    { entry := entry, acks := [], residualText := resid,
      agentCalled := true, payloads := [agent resid], runThink := inlineThinkOf dirs }

/-! ### Live verbose check of the run coordinator

Modelled from the spec: §4.5's lazily evaluated callback reflecting the
current stored verbose level (the `shouldEmitToolResult` callback observed in
`reply.directive.test.ts`), re-reading the session store on every call. -/

/-- The live tool-result emission check: read the current stored verbose
level of the session, falling back to the configured default. -/

def shouldEmitToolResult (st : SessionStore) (k : String) (verboseDefault : Bool) : Bool :=
  match (storeGet st k).bind (fun e => e.verboseLevel) with
  | some l => l == "on"
  | none => verboseDefault

/-- Persist a verbose level for the session (the store mutation a `/verbose`
directive or the test's mid-run write performs). -/

def setVerboseLevel (st : SessionStore) (k : String) (lvl : String) (now : Nat) : SessionStore :=
  let e := (storeGet st k).getD {}
  storeSet st k { e with verboseLevel := some lvl, updatedAt := now }

/-! ### Reconnect policy

`resolveReconnectPolicy` itself is not under `src/`; the `WebReconnectConfig`
shape and its validation come from the source config schema (`WarelaySchema`:
`initialMs`/`maxMs`/`factor` positive, `jitter` in `[0,1]`, `maxAttempts` a
non-negative integer, commented `0 = unlimited`), and the delay formula is
modelled from spec §4.6. -/

/-- The `web.reconnect` configuration (source `WebReconnectConfig`). -/

structure WebReconnectConfig where
  initialMs : Option ℚ := none
  maxMs : Option ℚ := none
  factor : Option ℚ := none
  jitter : Option ℚ := none
  maxAttempts : Option ℕ := none

/-- The zod validation of `web.reconnect` in the source `WarelaySchema`:
every provided `initialMs`/`maxMs`/`factor` is positive and `jitter` lies in
`[0, 1]`. -/

def reconnectConfigValid (c : WebReconnectConfig) : Prop :=
  (∀ x ∈ c.initialMs, 0 < x) ∧ (∀ x ∈ c.maxMs, 0 < x) ∧ (∀ x ∈ c.factor, 0 < x) ∧
  (∀ j ∈ c.jitter, 0 ≤ j ∧ j ≤ 1)

/-- Modelled from the spec: the un-jittered backoff for attempt `n` is
`min(maxMs, initialMs * factor^n)`. -/

def backoffBase (initialMs maxMs factor : ℚ) (n : ℕ) : ℚ := min maxMs (initialMs * factor ^ n)

/-- Modelled from the spec: the suggested delay randomizes the base by the
jitter fraction, `r ∈ [-1, 1]` being the (externally drawn) random sign and
magnitude. -/

def suggestedDelay (initialMs maxMs factor jitter : ℚ) (n : ℕ) (r : ℚ) : ℚ :=
  backoffBase initialMs maxMs factor n * (1 + jitter * r)

/-- Modelled from the spec and the source comment `maxAttempts?: number; //
0 = unlimited`: attempt `n` is permitted when the limit is 0 (unlimited) or
not yet reached. -/

def reconnectAllowsAttempt (maxAttempts n : ℕ) : Prop := maxAttempts = 0 ∨ n < maxAttempts

/-- The reconnect configuration of the C8 witness scenario. -/

def demoReconnectCfg : WebReconnectConfig :=
  { initialMs := some 500, maxMs := some 8000, factor := some 2,
    jitter := some (1/2), maxAttempts := some 0 }

/-- The elevated context of the C7 witness scenario: sender on the global
allowlist but absent from the configured per-agent allowlist. -/

def demoElevatedCtx : DirectiveCtx :=
  { elevatedEnabled := true, elevatedGlobalAllow := ["+1222", "+1333"],
    elevatedAgentAllow := some ["+1333"], sender := "+1222", verboseDefault := false }

/-- Claim C1: executing a valid `queue <mode> debounce:<d> cap:<n> drop:<p>`
directive persists a session entry whose queueMode, queueDebounceMs, queueCap
and queueDrop equal exactly `(mode, d, n, p)`, and a subsequent `queue reset`
returns all four fields to the unset state. -/
theorem queue_directive_persists_and_resets
    (entry : SessionEntry) (mode tb tc tp : String) (d n : Nat) (p : String)
    (hm : queueModes.contains mode = true)
    (hb : parseQueueToken tb = .debounce d)
    (hc : parseQueueToken tc = .cap n)
    (hp : parseQueueToken tp = .dropPolicy p) :
    (execQueueToks entry [mode, tb, tc, tp]).errors = [] ∧
    (execQueueToks entry [mode, tb, tc, tp]).entry.queueMode = some mode ∧
    (execQueueToks entry [mode, tb, tc, tp]).entry.queueDebounceMs = some d ∧
    (execQueueToks entry [mode, tb, tc, tp]).entry.queueCap = some n ∧
    (execQueueToks entry [mode, tb, tc, tp]).entry.queueDrop = some p ∧
    (execQueueToks (execQueueToks entry [mode, tb, tc, tp]).entry ["reset"]).entry.queueMode = none ∧
    (execQueueToks (execQueueToks entry [mode, tb, tc, tp]).entry ["reset"]).entry.queueDebounceMs = none ∧
    (execQueueToks (execQueueToks entry [mode, tb, tc, tp]).entry ["reset"]).entry.queueCap = none ∧
    (execQueueToks (execQueueToks entry [mode, tb, tc, tp]).entry ["reset"]).entry.queueDrop = none := by
  have hr : ¬(mode = "reset") := by
    intro h
    subst h
    exact absurd hm (by decide)
  have hmem : mode ∈ queueModes := by
    obtain ⟨a, ha, hab⟩ := List.contains_iff_exists_mem_beq.mp hm
    rw [show mode = a from eq_of_beq hab]
    exact ha
  simp [execQueueToks, hr, hmem, hb, hc, hp, queueTokError, applyQueueTok, queueTokAck]

/-- Witness for C1: the concrete directive `queue collect debounce:2s cap:5 drop:old`
persists `(collect, 2000, 5, old)` and `queue reset` clears all four. -/
theorem queue_directive_persists_and_resets_witness :
    (execQueueToks {} ["collect", "debounce:2s", "cap:5", "drop:old"]).errors = [] ∧
    (execQueueToks {} ["collect", "debounce:2s", "cap:5", "drop:old"]).entry.queueMode = some "collect" ∧
    (execQueueToks {} ["collect", "debounce:2s", "cap:5", "drop:old"]).entry.queueDebounceMs = some 2000 ∧
    (execQueueToks {} ["collect", "debounce:2s", "cap:5", "drop:old"]).entry.queueCap = some 5 ∧
    (execQueueToks {} ["collect", "debounce:2s", "cap:5", "drop:old"]).entry.queueDrop = some "old" ∧
    (execQueueToks (execQueueToks {} ["collect", "debounce:2s", "cap:5", "drop:old"]).entry ["reset"]).entry.queueMode = none ∧
    (execQueueToks (execQueueToks {} ["collect", "debounce:2s", "cap:5", "drop:old"]).entry ["reset"]).entry.queueDebounceMs = none ∧
    (execQueueToks (execQueueToks {} ["collect", "debounce:2s", "cap:5", "drop:old"]).entry ["reset"]).entry.queueCap = none ∧
    (execQueueToks (execQueueToks {} ["collect", "debounce:2s", "cap:5", "drop:old"]).entry ["reset"]).entry.queueDrop = none :=
  queue_directive_persists_and_resets {} "collect" "debounce:2s" "cap:5" "drop:old" 2000 5 "old"
    (by decide) (by decide) (by decide) (by decide)

/-- Claim C2: in a single `queue` command, every invalid debounce/cap/drop
token contributes its own named error line, all collected in the one response,
and whenever any error is present the stored entry is not mutated at all. -/
theorem queue_invalid_tokens_reported_without_mutation
    (entry : SessionEntry) (mode : String) (opts : List String)
    (hr : mode ≠ "reset") :
    ((execQueueToks entry (mode :: opts)).errors =
      (if queueModes.contains mode then [] else ["Invalid queue mode: " ++ mode])
        ++ opts.filterMap (fun t => queueTokError (parseQueueToken t))) ∧
    ((execQueueToks entry (mode :: opts)).errors ≠ [] →
      (execQueueToks entry (mode :: opts)).entry = entry) := by
  have hfm : (opts.map parseQueueToken).filterMap queueTokError
      = opts.filterMap (fun t => queueTokError (parseQueueToken t)) := by
    rw [List.filterMap_map]
    rfl
  by_cases h : ((if queueModes.contains mode then [] else ["Invalid queue mode: " ++ mode])
      ++ (opts.map parseQueueToken).filterMap queueTokError) = []
  · constructor
    · simp only [execQueueToks, if_neg hr]
      rw [if_pos h, ← hfm, h]
    · intro hne
      exfalso
      apply hne
      simp only [execQueueToks, if_neg hr]
      rw [if_pos h]
  · constructor
    · simp only [execQueueToks, if_neg hr]
      rw [if_neg h, ← hfm]
    · intro _
      simp only [execQueueToks, if_neg hr]
      rw [if_neg h]

/-- Witness for C2: `queue collect debounce:bogus cap:zero drop:maybe` reports
all three named errors together and leaves the entry untouched. -/
theorem queue_invalid_tokens_reported_without_mutation_witness :
    ((execQueueToks {} ["collect", "debounce:bogus", "cap:zero", "drop:maybe"]).errors =
      (if queueModes.contains "collect" then [] else ["Invalid queue mode: " ++ "collect"])
        ++ ["debounce:bogus", "cap:zero", "drop:maybe"].filterMap
            (fun t => queueTokError (parseQueueToken t))) ∧
    ((execQueueToks {} ["collect", "debounce:bogus", "cap:zero", "drop:maybe"]).errors ≠ [] →
      (execQueueToks {} ["collect", "debounce:bogus", "cap:zero", "drop:maybe"]).entry = {}) :=
  queue_invalid_tokens_reported_without_mutation {} "collect"
    ["debounce:bogus", "cap:zero", "drop:maybe"] (by decide)

/-- Claim C3: in fuzzy model resolution, zero candidates yield an
"unrecognized" error naming the raw input, exactly one candidate yields a
selection, and several candidates yield an "ambiguous" error showing the
first `min 5` candidates as `provider/model` followed, when more than 5
matched, by a remainder count equal to the total minus 5. -/
theorem fuzzy_resolution_case_analysis
    (resolveRef : String → Option ResolvedRef) (allowed : List String)
    (ai : ModelAliasIndex) (raw dP dM : String)
    (hres : resolveRef (strTrim raw) = none)
    (hfrag : strLower (strTrim (strTrim raw)) ≠ "") :
    (fuzzyCandidates allowed ai none (strLower (strTrim (strTrim raw))) = [] →
      resolveModelDirectiveSelection resolveRef raw dP dM ai allowed =
        .err ("Unrecognized model \"" ++ strTrim raw ++ "\". Use /model to list available models.")) ∧
    (∀ m, fuzzyCandidates allowed ai none (strLower (strTrim (strTrim raw))) = [m] →
      resolveModelDirectiveSelection resolveRef raw dP dM ai allowed =
        .ok (buildSelection ai dP dM m.provider m.model)) ∧
    (∀ c1 c2 rest, fuzzyCandidates allowed ai none (strLower (strTrim (strTrim raw))) = c1 :: c2 :: rest →
      resolveModelDirectiveSelection resolveRef raw dP dM ai allowed =
        .err ("Ambiguous model \"" ++ strTrim raw ++ "\". Matches: "
          ++ strJoin ", " (((c1 :: c2 :: rest).take 5).map (fun c => c.provider ++ "/" ++ c.model))
          ++ (if 5 < (c1 :: c2 :: rest).length then
                " (+" ++ toString ((c1 :: c2 :: rest).length - 5) ++ " more)" else "")
          ++ ". Use /model to list or specify provider/model.") ∧
      (5 < (c1 :: c2 :: rest).length → ((c1 :: c2 :: rest).take 5).length = 5)) := by
  refine ⟨?_, ?_, ?_⟩
  · intro hc
    simp [resolveModelDirectiveSelection, hres, resolveFuzzy, hfrag, hc]
  · intro m hc
    simp [resolveModelDirectiveSelection, hres, resolveFuzzy, hfrag, hc]
  · intro c1 c2 rest hc
    constructor
    · simp [resolveModelDirectiveSelection, hres, resolveFuzzy, hfrag, hc, ambiguousModelMsg]
    · intro h5
      rw [List.length_take]
      omega

/-- Witness for C3: seven allowlisted models all match fragment `m`; the three
case clauses are obtained at this concrete input (the third fires: exactly 5
shown plus a remainder of 2). -/
theorem fuzzy_resolution_case_analysis_witness :
    (fuzzyCandidates ["p/m1", "p/m2", "p/m3", "p/m4", "p/m5", "p/m6", "p/m7"] ⟨[], []⟩ none
        (strLower (strTrim (strTrim "m"))) = [] →
      resolveModelDirectiveSelection (fun _ => none) "m" "p" "d" ⟨[], []⟩
          ["p/m1", "p/m2", "p/m3", "p/m4", "p/m5", "p/m6", "p/m7"] =
        .err ("Unrecognized model \"" ++ strTrim "m" ++ "\". Use /model to list available models.")) ∧
    (∀ m, fuzzyCandidates ["p/m1", "p/m2", "p/m3", "p/m4", "p/m5", "p/m6", "p/m7"] ⟨[], []⟩ none
        (strLower (strTrim (strTrim "m"))) = [m] →
      resolveModelDirectiveSelection (fun _ => none) "m" "p" "d" ⟨[], []⟩
          ["p/m1", "p/m2", "p/m3", "p/m4", "p/m5", "p/m6", "p/m7"] =
        .ok (buildSelection ⟨[], []⟩ "p" "d" m.provider m.model)) ∧
    (∀ c1 c2 rest, fuzzyCandidates ["p/m1", "p/m2", "p/m3", "p/m4", "p/m5", "p/m6", "p/m7"] ⟨[], []⟩ none
        (strLower (strTrim (strTrim "m"))) = c1 :: c2 :: rest →
      resolveModelDirectiveSelection (fun _ => none) "m" "p" "d" ⟨[], []⟩
          ["p/m1", "p/m2", "p/m3", "p/m4", "p/m5", "p/m6", "p/m7"] =
        .err ("Ambiguous model \"" ++ strTrim "m" ++ "\". Matches: "
          ++ strJoin ", " (((c1 :: c2 :: rest).take 5).map (fun c => c.provider ++ "/" ++ c.model))
          ++ (if 5 < (c1 :: c2 :: rest).length then
                " (+" ++ toString ((c1 :: c2 :: rest).length - 5) ++ " more)" else "")
          ++ ". Use /model to list or specify provider/model.") ∧
      (5 < (c1 :: c2 :: rest).length → ((c1 :: c2 :: rest).take 5).length = 5)) :=
  fuzzy_resolution_case_analysis (fun _ => none)
    ["p/m1", "p/m2", "p/m3", "p/m4", "p/m5", "p/m6", "p/m7"] ⟨[], []⟩ "m" "p" "d"
    rfl (by decide)

/-- Counterexample to claim C4 as stated: the raw reference `openai/gpt-4`
resolves via exact match to the key `openai/gpt-4`, which is not in the
non-empty allowlist, yet `resolveModelDirectiveSelection` returns a fuzzy
selection of `openai/gpt-4.1-mini` instead of a "not allowed" error, because
the provider-scoped fuzzy fallback runs before the not-allowed error. -/
theorem exact_disallowed_can_still_fuzzy_select :
    resolveModelDirectiveSelection
      (exactResolve [⟨"openai", "gpt-4"⟩, ⟨"openai", "gpt-4.1-mini"⟩, ⟨"anthropic", "claude-opus-4-5"⟩]
        ⟨[], []⟩ "anthropic")
      "openai/gpt-4" "anthropic" "claude-opus-4-5" ⟨[], []⟩
      ["anthropic/claude-opus-4-5", "openai/gpt-4.1-mini"] =
      .ok { provider := "openai", model := "gpt-4.1-mini", isDefault := false, aliasName := none } ∧
    exactResolve [⟨"openai", "gpt-4"⟩, ⟨"openai", "gpt-4.1-mini"⟩, ⟨"anthropic", "claude-opus-4-5"⟩]
        ⟨[], []⟩ "anthropic" (strTrim "openai/gpt-4") =
      some { ref := ⟨"openai", "gpt-4"⟩, aliasName := none } ∧
    (["anthropic/claude-opus-4-5", "openai/gpt-4.1-mini"] : List String).contains
        (modelKey "openai" "gpt-4") = false := by
  refine ⟨by decide, by decide, by decide⟩

/-- Claim C4 (amended): a reference that resolves via exact match to a key not
in the non-empty allowlist yields the "not allowed" error naming that
provider/model only when both the provider-scoped and the allowlist-wide
fuzzy fallbacks find nothing; otherwise the fuzzy fallback's selection or
ambiguity error is returned instead. -/
theorem exact_disallowed_without_fuzzy_yields_not_allowed
    (resolveRef : String → Option ResolvedRef) (raw dP dM : String)
    (ai : ModelAliasIndex) (allowed : List String) (r : ResolvedRef)
    (hres : resolveRef (strTrim raw) = some r)
    (hne : allowed ≠ [])
    (hkey : allowed.contains (modelKey r.ref.provider r.ref.model) = false)
    (hps : providerScopedFuzzy allowed ai dP dM (strTrim raw) = .noMatch)
    (hgl : resolveFuzzy allowed ai dP dM (strTrim raw) none (strTrim raw) = .noMatch) :
    resolveModelDirectiveSelection resolveRef raw dP dM ai allowed =
      .err ("Model \"" ++ r.ref.provider ++ "/" ++ r.ref.model
        ++ "\" is not allowed. Use /model to list available models.") := by
  have hie : allowed.isEmpty = false := by
    cases allowed
    · exact absurd rfl hne
    · rfl
  have hcond : (allowed.isEmpty || allowed.contains (modelKey r.ref.provider r.ref.model)) = false := by
    rw [hie, hkey]
    rfl
  simp only [resolveModelDirectiveSelection, hres]
  rw [hcond]
  simp only [Bool.false_eq_true, if_false]
  rw [hps]
  simp only []
  rw [hgl]

/-- Witness for the amended C4: `openai/gpt-4` against an allowlist containing
only `anthropic/claude-opus-4-5`, where neither fuzzy fallback matches. -/
theorem exact_disallowed_without_fuzzy_yields_not_allowed_witness :
    resolveModelDirectiveSelection
      (exactResolve [⟨"openai", "gpt-4"⟩, ⟨"anthropic", "claude-opus-4-5"⟩] ⟨[], []⟩ "anthropic")
      "openai/gpt-4" "anthropic" "claude-opus-4-5" ⟨[], []⟩ ["anthropic/claude-opus-4-5"] =
      .err ("Model \"" ++ "openai" ++ "/" ++ "gpt-4"
        ++ "\" is not allowed. Use /model to list available models.") :=
  exact_disallowed_without_fuzzy_yields_not_allowed
    (exactResolve [⟨"openai", "gpt-4"⟩, ⟨"anthropic", "claude-opus-4-5"⟩] ⟨[], []⟩ "anthropic")
    "openai/gpt-4" "anthropic" "claude-opus-4-5" ⟨[], []⟩ ["anthropic/claude-opus-4-5"]
    { ref := ⟨"openai", "gpt-4"⟩, aliasName := none }
    (by decide) (by decide) (by decide) (by decide) (by decide)

/-- Claim C5: model resolution is deterministic (resolving the same string
twice yields the same result, the resolver being a pure function of its
inputs) and alias-coherent: a configured alias and its canonical
`provider/model` form resolve to selections carrying the same
(provider, model) pair. -/
theorem model_resolution_idempotent_and_alias_coherent
    (resolveRef : String → Option ResolvedRef) (dP dM a p m : String)
    (ai : ModelAliasIndex) (allowed : List String)
    (halias : resolveRef (strTrim a) = some { ref := ⟨p, m⟩, aliasName := some a })
    (hcanon : resolveRef (strTrim (p ++ "/" ++ m)) = some { ref := ⟨p, m⟩, aliasName := none })
    (hok : (allowed.isEmpty || allowed.contains (modelKey p m)) = true) :
    (∀ raw, resolveModelDirectiveSelection resolveRef raw dP dM ai allowed =
        resolveModelDirectiveSelection resolveRef raw dP dM ai allowed) ∧
    resolveModelDirectiveSelection resolveRef a dP dM ai allowed =
      .ok { provider := p, model := m, isDefault := p == dP && m == dM, aliasName := some a } ∧
    resolveModelDirectiveSelection resolveRef (p ++ "/" ++ m) dP dM ai allowed =
      .ok { provider := p, model := m, isDefault := p == dP && m == dM, aliasName := none } := by
  refine ⟨fun _ => rfl, ?_, ?_⟩
  · simp only [resolveModelDirectiveSelection, halias]
    rw [hok]
    rfl
  · simp only [resolveModelDirectiveSelection, hcanon]
    rw [hok]
    rfl

/-- Witness for C5: the configured alias `Opus` for
`anthropic/claude-opus-4-5` and the canonical form resolve to the same
(provider, model) pair under the spec-modelled exact resolver. -/
theorem model_resolution_idempotent_and_alias_coherent_witness :
    (∀ raw, resolveModelDirectiveSelection
        (exactResolve [⟨"anthropic", "claude-opus-4-5"⟩]
          ⟨[("Opus", ⟨"anthropic", "claude-opus-4-5"⟩)], [("anthropic/claude-opus-4-5", ["Opus"])]⟩ "openai")
        raw "openai" "gpt-4.1-mini"
        ⟨[("Opus", ⟨"anthropic", "claude-opus-4-5"⟩)], [("anthropic/claude-opus-4-5", ["Opus"])]⟩
        ["anthropic/claude-opus-4-5"] =
      resolveModelDirectiveSelection
        (exactResolve [⟨"anthropic", "claude-opus-4-5"⟩]
          ⟨[("Opus", ⟨"anthropic", "claude-opus-4-5"⟩)], [("anthropic/claude-opus-4-5", ["Opus"])]⟩ "openai")
        raw "openai" "gpt-4.1-mini"
        ⟨[("Opus", ⟨"anthropic", "claude-opus-4-5"⟩)], [("anthropic/claude-opus-4-5", ["Opus"])]⟩
        ["anthropic/claude-opus-4-5"]) ∧
    resolveModelDirectiveSelection
      (exactResolve [⟨"anthropic", "claude-opus-4-5"⟩]
        ⟨[("Opus", ⟨"anthropic", "claude-opus-4-5"⟩)], [("anthropic/claude-opus-4-5", ["Opus"])]⟩ "openai")
      "Opus" "openai" "gpt-4.1-mini"
      ⟨[("Opus", ⟨"anthropic", "claude-opus-4-5"⟩)], [("anthropic/claude-opus-4-5", ["Opus"])]⟩
      ["anthropic/claude-opus-4-5"] =
      .ok { provider := "anthropic", model := "claude-opus-4-5",
            isDefault := "anthropic" == "openai" && "claude-opus-4-5" == "gpt-4.1-mini",
            aliasName := some "Opus" } ∧
    resolveModelDirectiveSelection
      (exactResolve [⟨"anthropic", "claude-opus-4-5"⟩]
        ⟨[("Opus", ⟨"anthropic", "claude-opus-4-5"⟩)], [("anthropic/claude-opus-4-5", ["Opus"])]⟩ "openai")
      ("anthropic" ++ "/" ++ "claude-opus-4-5") "openai" "gpt-4.1-mini"
      ⟨[("Opus", ⟨"anthropic", "claude-opus-4-5"⟩)], [("anthropic/claude-opus-4-5", ["Opus"])]⟩
      ["anthropic/claude-opus-4-5"] =
      .ok { provider := "anthropic", model := "claude-opus-4-5",
            isDefault := "anthropic" == "openai" && "claude-opus-4-5" == "gpt-4.1-mini",
            aliasName := none } :=
  model_resolution_idempotent_and_alias_coherent
    (exactResolve [⟨"anthropic", "claude-opus-4-5"⟩]
      ⟨[("Opus", ⟨"anthropic", "claude-opus-4-5"⟩)], [("anthropic/claude-opus-4-5", ["Opus"])]⟩ "openai")
    "openai" "gpt-4.1-mini" "Opus" "anthropic" "claude-opus-4-5"
    ⟨[("Opus", ⟨"anthropic", "claude-opus-4-5"⟩)], [("anthropic/claude-opus-4-5", ["Opus"])]⟩
    ["anthropic/claude-opus-4-5"]
    (by decide) (by decide) (by decide)

/-- If the effective allowed set is non-empty, the selection of the
stored-override stage is the caller-provided pair or carries an allowlisted
key. -/
theorem effSelCore_default_or_allowed (keys : List String) (dP prov md : String)
    (spo smo : Option String) (hk : keys ≠ []) :
    (effSelCore keys dP prov md spo smo = (prov, md)) ∨
    keys.contains (modelKey (effSelCore keys dP prov md spo smo).1
      (effSelCore keys dP prov md spo smo).2) = true := by
  have hie : keys.isEmpty = false := by
    cases keys
    · exact absurd rfl hk
    · rfl
  unfold effSelCore
  cases smo with
  | none => left; rfl
  | some m0 =>
    dsimp only
    by_cases h0 : m0 = ""
    · rw [if_neg (fun hcon => hcon h0)]
      left
      rfl
    · rw [if_pos h0]
      have hcond : (keys.isEmpty || keys.contains (modelKey (truthyOr spo dP) m0))
          = keys.contains (modelKey (truthyOr spo dP) m0) := by
        rw [hie]
        exact Bool.false_or _
      rw [hcond]
      cases hc : keys.contains (modelKey (truthyOr spo dP) m0) with
      | false =>
        rw [if_neg Bool.false_ne_true]
        left
        rfl
      | true =>
        rw [if_pos rfl]
        right
        exact hc

/-- A falsy stored model override (absent or empty after trimming) leaves the
caller-provided pair untouched. -/
theorem effSelCore_of_falsy (keys : List String) (dP prov md : String)
    (spo smo : Option String) (h : smo = none ∨ smo = some "") :
    effSelCore keys dP prov md spo smo = (prov, md) := by
  rcases h with h | h
  · rw [h]
    rfl
  · rw [h]
    unfold effSelCore
    dsimp only
    rw [if_neg (fun hcon => hcon rfl)]

/-- With no truthy stored override, the reconciliation stage is the identity. -/
theorem reconcile_of_not_stored (keys : List String) (dP : String) (now : Nat)
    (sp : Option String) (e1 : Option SessionEntry) (st1 : Option SessionStore)
    (k1 : Option String) :
    reconcileStoredOverride keys dP now false sp e1 st1 k1 = (e1, st1, false, false) := by
  rcases e1 with _ | e <;> rcases st1 with _ | st <;> rcases k1 with _ | k <;> rfl

/-- With a non-empty allowed set, every effective selection produced by
`createModelSelectionState` is the caller-provided (default) pair or a key of
the allowed set it resolves against. -/
theorem createModelSelectionState_default_or_allowlisted (allowed : AllowedModelSet) (authProfiles : List (String × String)) (now : Nat)
    (hne : allowed.allowedKeys ≠ []) (q : CreateStateParams) :
    ((createModelSelectionState allowed authProfiles now q).provider = q.provider ∧
     (createModelSelectionState allowed authProfiles now q).model = q.model) ∨
    (createModelSelectionState allowed authProfiles now q).allowedModelKeys.contains
      (modelKey (createModelSelectionState allowed authProfiles now q).provider
        (createModelSelectionState allowed authProfiles now q).model) = true := by
  by_cases hneed : (q.hasModelDirective || agentHasAllowlist q.agentModels
      || entryHasStoredOverride q.sessionEntry) = true
  · have hK : (createModelSelectionState allowed authProfiles now q).allowedModelKeys
        = allowed.allowedKeys := by
      unfold createModelSelectionState
      dsimp only
      rw [hneed]
      exact if_pos rfl
    obtain ⟨spo, smo, hpm⟩ : ∃ spo smo,
        ((createModelSelectionState allowed authProfiles now q).provider,
         (createModelSelectionState allowed authProfiles now q).model)
        = effSelCore allowed.allowedKeys q.defaultProvider q.provider q.model spo smo :=
      ⟨_, _, by
        unfold createModelSelectionState effectiveOverrideSelection
        dsimp only
        rw [hneed, if_pos rfl]⟩
    rcases effSelCore_default_or_allowed allowed.allowedKeys q.defaultProvider
        q.provider q.model spo smo hne with h | h
    · left
      rw [h] at hpm
      have h1 : (createModelSelectionState allowed authProfiles now q).provider = q.provider :=
        congrArg Prod.fst hpm
      have h2 : (createModelSelectionState allowed authProfiles now q).model = q.model :=
        congrArg Prod.snd hpm
      exact ⟨h1, h2⟩
    · right
      have h1 : (createModelSelectionState allowed authProfiles now q).provider =
          (effSelCore allowed.allowedKeys q.defaultProvider q.provider q.model spo smo).1 :=
        congrArg Prod.fst hpm
      have h2 : (createModelSelectionState allowed authProfiles now q).model =
          (effSelCore allowed.allowedKeys q.defaultProvider q.provider q.model spo smo).2 :=
        congrArg Prod.snd hpm
      rw [hK, h1, h2]
      exact h
  · have hneedF : (q.hasModelDirective || agentHasAllowlist q.agentModels
        || entryHasStoredOverride q.sessionEntry) = false := by
      cases h2 : (q.hasModelDirective || agentHasAllowlist q.agentModels
          || entryHasStoredOverride q.sessionEntry)
      · rfl
      · exact absurd h2 hneed
    have hso : entryHasStoredOverride q.sessionEntry = false := by
      rcases Bool.or_eq_false_iff.mp hneedF with ⟨_, h3⟩
      exact h3
    have hfals : ((q.sessionEntry.bind (fun e0 => e0.modelOverride)).map strTrim = none ∨
        (q.sessionEntry.bind (fun e0 => e0.modelOverride)).map strTrim = some "") := by
      rcases hqe : q.sessionEntry with _ | e0
      · left
        rfl
      · rw [hqe] at hso
        unfold entryHasStoredOverride at hso
        rcases Bool.or_eq_false_iff.mp hso with ⟨h4, _⟩
        simp only [Option.some_bind]
        rcases hmv : e0.modelOverride with _ | s
        · left
          rfl
        · right
          rw [hmv] at h4
          unfold optTruthy at h4
          dsimp only at h4
          have hs : s = "" := by
            cases hsb : (s == "")
            · rw [hsb] at h4
              exact absurd h4 (by decide)
            · exact eq_of_beq hsb
          rw [hs]
          rfl
    obtain ⟨keys, spo, hpm⟩ : ∃ keys spo,
        ((createModelSelectionState allowed authProfiles now q).provider,
         (createModelSelectionState allowed authProfiles now q).model)
        = effSelCore keys q.defaultProvider q.provider q.model spo
            ((q.sessionEntry.bind (fun e0 => e0.modelOverride)).map strTrim) :=
      ⟨_, _, by
        unfold createModelSelectionState effectiveOverrideSelection
        dsimp only
        rw [hso, reconcile_of_not_stored]⟩
    left
    rw [effSelCore_of_falsy keys q.defaultProvider q.provider q.model spo _ hfals] at hpm
    have h1 : (createModelSelectionState allowed authProfiles now q).provider = q.provider :=
      congrArg Prod.fst hpm
    have h2 : (createModelSelectionState allowed authProfiles now q).model = q.model :=
      congrArg Prod.snd hpm
    exact ⟨h1, h2⟩

/-- Claim C10: when a session entry carries a stored model override whose
(providerOverride-or-default, modelOverride) key is not in the non-empty
allowed set, `createModelSelectionState` deletes both overrides, refreshes
`updatedAt`, writes the entry back into the store and persists it, and the
effective provider/model fall back to the caller-provided values;
consequently (last conjunct) every effective selection produced under a
non-empty allowed set is either the caller-provided pair or an allowlisted
key. -/
theorem createModelSelectionState_reconciles_disallowed_override
    (allowed : AllowedModelSet) (authProfiles : List (String × String)) (now : Nat)
    (p : CreateStateParams) (e : SessionEntry) (st : SessionStore) (k sp m0 : String)
    (he : p.sessionEntry = some e) (hst : p.sessionStore = some st)
    (hk : p.sessionKey = some k) (hsp : p.storePath = some sp)
    (hm : e.modelOverride = some m0) (hm0 : ¬(strTrim m0 = ""))
    (hauth : e.authProfileOverride = none)
    (hne : allowed.allowedKeys ≠ [])
    (hkey : allowed.allowedKeys.contains
      (modelKey (truthyOr (e.providerOverride.map strTrim) p.defaultProvider) (strTrim m0)) = false) :
    (createModelSelectionState allowed authProfiles now p).resetModelOverride = true ∧
    (createModelSelectionState allowed authProfiles now p).sessionEntry =
      some { e with providerOverride := none, modelOverride := none, updatedAt := now } ∧
    (createModelSelectionState allowed authProfiles now p).sessionStore =
      some (storeSet st k { e with providerOverride := none, modelOverride := none, updatedAt := now }) ∧
    (createModelSelectionState allowed authProfiles now p).savedStore = true ∧
    (createModelSelectionState allowed authProfiles now p).provider = p.provider ∧
    (createModelSelectionState allowed authProfiles now p).model = p.model ∧
    (∀ q : CreateStateParams,
      ((createModelSelectionState allowed authProfiles now q).provider = q.provider ∧
       (createModelSelectionState allowed authProfiles now q).model = q.model) ∨
      (createModelSelectionState allowed authProfiles now q).allowedModelKeys.contains
        (modelKey (createModelSelectionState allowed authProfiles now q).provider
          (createModelSelectionState allowed authProfiles now q).model) = true) := by
  have hm0Q : ¬(m0 = "") := fun h => hm0 (by rw [h]; rfl)
  have hie : allowed.allowedKeys.isEmpty = false := by
    cases h2 : allowed.allowedKeys with
    | nil => rw [h2] at hne; exact absurd rfl hne
    | cons a t => rfl
  have hkeymem : modelKey (truthyOr (e.providerOverride.map strTrim) p.defaultProvider)
      (strTrim m0) ∉ allowed.allowedKeys := by
    intro hmem
    have hc : allowed.allowedKeys.contains (modelKey
        (truthyOr (e.providerOverride.map strTrim) p.defaultProvider) (strTrim m0)) = true :=
      List.elem_iff.mpr hmem
    rw [hc] at hkey
    cases hkey
  have hmain : createModelSelectionState allowed authProfiles now p =
      { provider := p.provider, model := p.model,
        allowedModelKeys := allowed.allowedKeys,
        resetModelOverride := true,
        sessionEntry := some { e with providerOverride := none, modelOverride := none, updatedAt := now },
        sessionStore := some (storeSet st k { e with providerOverride := none, modelOverride := none, updatedAt := now }),
        savedStore := true,
        needsModelCatalog := true } := by
    simp [createModelSelectionState, he, hst, hk, hsp, hm, hauth, hm0Q, hm0, hie, hkeymem,
      reconcileStoredOverride, reconcileAuthProfile, effectiveOverrideSelection, effSelCore,
      optTruthy, entryHasStoredOverride]
  refine ⟨by rw [hmain], by rw [hmain], by rw [hmain], by rw [hmain], by rw [hmain],
    by rw [hmain], ?_⟩
  intro q
  exact createModelSelectionState_default_or_allowlisted allowed authProfiles now hne q

/-- Witness for C10: a stored `openai/gpt-4` override against the allowed set
containing only `anthropic/claude-opus-4-5` is deleted, persisted, and the
selection falls back to the provided defaults. -/
theorem createModelSelectionState_reconciles_disallowed_override_witness :
    (createModelSelectionState demoAllowedSet [] 111 demoCreateParams).resetModelOverride = true ∧
    (createModelSelectionState demoAllowedSet [] 111 demoCreateParams).sessionEntry =
      some { demoOverrideEntry with providerOverride := none, modelOverride := none, updatedAt := 111 } ∧
    (createModelSelectionState demoAllowedSet [] 111 demoCreateParams).sessionStore =
      some (storeSet demoOverrideStore "agent:main:main"
        { demoOverrideEntry with providerOverride := none, modelOverride := none, updatedAt := 111 }) ∧
    (createModelSelectionState demoAllowedSet [] 111 demoCreateParams).savedStore = true ∧
    (createModelSelectionState demoAllowedSet [] 111 demoCreateParams).provider =
      demoCreateParams.provider ∧
    (createModelSelectionState demoAllowedSet [] 111 demoCreateParams).model =
      demoCreateParams.model ∧
    (∀ q : CreateStateParams,
      ((createModelSelectionState demoAllowedSet [] 111 q).provider = q.provider ∧
       (createModelSelectionState demoAllowedSet [] 111 q).model = q.model) ∨
      (createModelSelectionState demoAllowedSet [] 111 q).allowedModelKeys.contains
        (modelKey (createModelSelectionState demoAllowedSet [] 111 q).provider
          (createModelSelectionState demoAllowedSet [] 111 q).model) = true) :=
  createModelSelectionState_reconciles_disallowed_override demoAllowedSet [] 111
    demoCreateParams demoOverrideEntry demoOverrideStore "agent:main:main" "sessions.json" "gpt-4"
    rfl rfl rfl rfl rfl (by decide) rfl (by decide) (by decide)

/-- Claim C8: under a schema-valid reconnect configuration, for every attempt
count `n` and jitter draw `r ∈ [-1, 1]` the suggested delay lies within the
jitter band `[base*(1-jitter), base*(1+jitter)]` around
`base = min(maxMs, initialMs * factor^n)`; the jitter is constrained to
`[0, 1]` and `maxAttempts = 0` permits every attempt (unlimited). -/
theorem reconnect_delay_within_jitter_bounds
    (c : WebReconnectConfig) (i M f j : ℚ) (n : ℕ) (r : ℚ)
    (hv : reconnectConfigValid c)
    (hi : c.initialMs = some i) (hM : c.maxMs = some M)
    (hf : c.factor = some f) (hj : c.jitter = some j)
    (hr1 : -1 ≤ r) (hr2 : r ≤ 1) :
    backoffBase i M f n * (1 - j) ≤ suggestedDelay i M f j n r ∧
    suggestedDelay i M f j n r ≤ backoffBase i M f n * (1 + j) ∧
    0 ≤ j ∧ j ≤ 1 ∧
    (∀ m, c.maxAttempts = some 0 → reconnectAllowsAttempt 0 m) := by
  obtain ⟨hvi, hvM, hvf, hvj⟩ := hv
  have hipos : 0 < i := hvi i (by rw [hi]; rfl)
  have hMpos : 0 < M := hvM M (by rw [hM]; rfl)
  have hfpos : 0 < f := hvf f (by rw [hf]; rfl)
  obtain ⟨hj0, hj1⟩ := hvj j (by rw [hj]; rfl)
  have hbase0 : 0 ≤ backoffBase i M f n := by
    unfold backoffBase
    apply le_min hMpos.le
    positivity
  have h1 : -j ≤ j * r := by
    have h := mul_le_mul_of_nonneg_left hr1 hj0
    rw [mul_neg_one] at h
    exact h
  have h2 : j * r ≤ j := by
    have h := mul_le_mul_of_nonneg_left hr2 hj0
    rw [mul_one] at h
    exact h
  refine ⟨?_, ?_, hj0, hj1, ?_⟩
  · unfold suggestedDelay
    apply mul_le_mul_of_nonneg_left _ hbase0
    linarith
  · unfold suggestedDelay
    apply mul_le_mul_of_nonneg_left _ hbase0
    linarith
  · intro m _
    exact Or.inl rfl

/-- Witness for C8: for `initialMs = 500`, `maxMs = 8000`, `factor = 2`,
`jitter = 1/2`, attempt 3 and draw `r = -1/4`, the delay lies in the band. -/
theorem reconnect_delay_within_jitter_bounds_witness :
    backoffBase 500 8000 2 3 * (1 - 1/2) ≤ suggestedDelay 500 8000 2 (1/2) 3 (-(1/4)) ∧
    suggestedDelay 500 8000 2 (1/2) 3 (-(1/4)) ≤ backoffBase 500 8000 2 3 * (1 + 1/2) ∧
    (0 : ℚ) ≤ 1/2 ∧ (1/2 : ℚ) ≤ 1 ∧
    (∀ m, demoReconnectCfg.maxAttempts = some 0 → reconnectAllowsAttempt 0 m) :=
  reconnect_delay_within_jitter_bounds demoReconnectCfg 500 8000 2 (1/2) 3 (-(1/4))
    (by refine ⟨?_, ?_, ?_, ?_⟩ <;> intro x hx <;> simp [demoReconnectCfg] at hx <;>
      subst hx <;> norm_num)
    rfl rfl rfl rfl (by norm_num) (by norm_num)

/-- Claim C6: the live verbose-check callback reflects the currently stored
verbose level at each call — with the same store, key and configured default,
the check flips from off to on when the stored level is mutated to `on`
mid-run and back to off when mutated to `off`, without any restart (the
callback is a function of the current store). -/
theorem live_verbose_check_reflects_store
    (st : SessionStore) (k : String) (d : Bool) (now1 now2 : Nat)
    (h : shouldEmitToolResult st k d = false) :
    shouldEmitToolResult st k d = false ∧
    shouldEmitToolResult (setVerboseLevel st k "on" now1) k d = true ∧
    shouldEmitToolResult (setVerboseLevel (setVerboseLevel st k "on" now1) k "off" now2) k d
      = false := by
  have hget : ∀ (s : SessionStore) (e : SessionEntry), storeGet (storeSet s k e) k = some e := by
    intro s e
    simp [storeGet, storeSet, List.lookup]
  refine ⟨h, ?_, ?_⟩
  · simp [shouldEmitToolResult, setVerboseLevel, hget]
  · simp [shouldEmitToolResult, setVerboseLevel, hget]

/-- Witness for C6: on the empty store with default `off`, the check returns
false, true after the mid-run `on` write, and false again after `off`. -/
theorem live_verbose_check_reflects_store_witness :
    shouldEmitToolResult [] "agent:main:main" false = false ∧
    shouldEmitToolResult (setVerboseLevel [] "agent:main:main" "on" 1) "agent:main:main" false
      = true ∧
    shouldEmitToolResult
      (setVerboseLevel (setVerboseLevel [] "agent:main:main" "on" 1) "agent:main:main" "off" 2)
      "agent:main:main" false = false :=
  live_verbose_check_reflects_store [] "agent:main:main" false 1 2 (by decide)

/-- Claim C7: `/elevated on` succeeds exactly when the elevated capability is
enabled for the addressed agent, the sender is on the global elevated
allowlist, and the sender is on the per-agent elevated allowlist whenever one
is configured; each single missing requirement yields the error naming that
requirement, and executing the directive invokes no agent and, on failure,
mutates nothing. -/
theorem elevated_on_requires_capability_and_both_allowlists (ctx : DirectiveCtx) :
    (checkElevatedOn ctx = .ok () ↔
      (ctx.elevatedEnabled = true ∧ ctx.elevatedGlobalAllow.contains ctx.sender = true ∧
       (∀ l, ctx.elevatedAgentAllow = some l → l.contains ctx.sender = true))) ∧
    (ctx.elevatedEnabled = false →
      checkElevatedOn ctx =
        .error "Elevated is disabled for this agent (agents.list[].tools.elevated.enabled).") ∧
    (ctx.elevatedEnabled = true → ctx.elevatedGlobalAllow.contains ctx.sender = false →
      checkElevatedOn ctx =
        .error "Sender not in the global elevated allowlist (tools.elevated.allowFrom.whatsapp).") ∧
    (∀ l, ctx.elevatedEnabled = true → ctx.elevatedGlobalAllow.contains ctx.sender = true →
      ctx.elevatedAgentAllow = some l → l.contains ctx.sender = false →
      checkElevatedOn ctx =
        .error "Sender not in the per-agent elevated allowlist (agents.list[].tools.elevated.allowFrom.whatsapp).") ∧
    (∀ (agent : String → String) (entry : SessionEntry),
      (processMessage ctx agent entry [.dir (.elevated (some "on"))]).agentCalled = false ∧
      (∀ msg, checkElevatedOn ctx = .error msg →
        (processMessage ctx agent entry [.dir (.elevated (some "on"))]).entry = entry ∧
        (processMessage ctx agent entry [.dir (.elevated (some "on"))]).payloads = [msg])) := by
  refine ⟨?_, ?_, ?_, ?_, ?_⟩
  · constructor
    · intro hok
      unfold checkElevatedOn at hok
      by_cases hcap : ctx.elevatedEnabled
      · by_cases hg : ctx.elevatedGlobalAllow.contains ctx.sender
        · refine ⟨hcap, hg, ?_⟩
          intro l hl
          rw [hcap, hg, hl] at hok
          simp at hok
          exact List.elem_iff.mpr hok
        · rw [Bool.not_eq_true] at hg
          rw [hcap, hg] at hok
          simp at hok
      · rw [Bool.not_eq_true] at hcap
        rw [hcap] at hok
        simp at hok
    · rintro ⟨hcap, hg, hpa⟩
      unfold checkElevatedOn
      rw [hcap, hg]
      simp only [Bool.not_true, Bool.false_eq_true, if_false]
      cases hl : ctx.elevatedAgentAllow with
      | none => rfl
      | some l =>
        dsimp only
        rw [hpa l hl]
        rfl
  · intro hcap
    unfold checkElevatedOn
    rw [hcap]
    rfl
  · intro hcap hg
    unfold checkElevatedOn
    rw [hcap, hg]
    rfl
  · intro l hcap hg hl hpa
    unfold checkElevatedOn
    rw [hcap, hg, hl]
    dsimp only
    rw [hpa]
    rfl
  · intro agent entry
    constructor
    · rfl
    · intro msg hmsg
      constructor
      · show (execDirectives ctx entry [.elevated (some "on")]).1 = entry
        simp [execDirectives, execDirective, hmsg]
      · show (execDirectives ctx entry [.elevated (some "on")]).2 = [msg]
        simp [execDirectives, execDirective, hmsg]

/-- Witness for C7, at a sender on the global but not the per-agent
allowlist: every clause of the characterisation holds at this input (the
per-agent clause fires). -/
theorem elevated_on_requires_capability_and_both_allowlists_witness :
    (checkElevatedOn demoElevatedCtx = .ok () ↔
      (demoElevatedCtx.elevatedEnabled = true ∧
       demoElevatedCtx.elevatedGlobalAllow.contains demoElevatedCtx.sender = true ∧
       (∀ l, demoElevatedCtx.elevatedAgentAllow = some l →
         l.contains demoElevatedCtx.sender = true))) ∧
    (demoElevatedCtx.elevatedEnabled = false →
      checkElevatedOn demoElevatedCtx =
        .error "Elevated is disabled for this agent (agents.list[].tools.elevated.enabled).") ∧
    (demoElevatedCtx.elevatedEnabled = true →
      demoElevatedCtx.elevatedGlobalAllow.contains demoElevatedCtx.sender = false →
      checkElevatedOn demoElevatedCtx =
        .error "Sender not in the global elevated allowlist (tools.elevated.allowFrom.whatsapp).") ∧
    (∀ l, demoElevatedCtx.elevatedEnabled = true →
      demoElevatedCtx.elevatedGlobalAllow.contains demoElevatedCtx.sender = true →
      demoElevatedCtx.elevatedAgentAllow = some l →
      l.contains demoElevatedCtx.sender = false →
      checkElevatedOn demoElevatedCtx =
        .error "Sender not in the per-agent elevated allowlist (agents.list[].tools.elevated.allowFrom.whatsapp).") ∧
    (∀ (agent : String → String) (entry : SessionEntry),
      (processMessage demoElevatedCtx agent entry [.dir (.elevated (some "on"))]).agentCalled
        = false ∧
      (∀ msg, checkElevatedOn demoElevatedCtx = .error msg →
        (processMessage demoElevatedCtx agent entry [.dir (.elevated (some "on"))]).entry
          = entry ∧
        (processMessage demoElevatedCtx agent entry [.dir (.elevated (some "on"))]).payloads
          = [msg])) :=
  elevated_on_requires_capability_and_both_allowlists demoElevatedCtx

/-- Counterexample to claim C9 as stated: a message mixing free text with an
inline `/elevated off` directive fragment strips the fragment from the
forwarded text and delivers the agent reply, but does NOT persist the
directive's effect — the stored entry is unchanged (elevatedLevel stays
unset), contradicting "all directives execute and persist their effects"
(mirrors the source test "strips inline elevated directives from the user
text (does not persist session override)"). -/
theorem inline_directive_not_persisted :
    (processMessage
        { elevatedEnabled := true, elevatedGlobalAllow := ["+1222"],
          elevatedAgentAllow := none, sender := "+1222", verboseDefault := false }
        (fun _ => "done") {} [.txt "hello there", .dir (.elevated (some "off"))]).entry.elevatedLevel
      = none ∧
    (processMessage
        { elevatedEnabled := true, elevatedGlobalAllow := ["+1222"],
          elevatedAgentAllow := none, sender := "+1222", verboseDefault := false }
        (fun _ => "done") {} [.txt "hello there", .dir (.elevated (some "off"))]).entry
      = ({} : SessionEntry) ∧
    (processMessage
        { elevatedEnabled := true, elevatedGlobalAllow := ["+1222"],
          elevatedAgentAllow := none, sender := "+1222", verboseDefault := false }
        (fun _ => "done") {} [.txt "hello there", .dir (.elevated (some "off"))]).residualText
      = "hello there" ∧
    (processMessage
        { elevatedEnabled := true, elevatedGlobalAllow := ["+1222"],
          elevatedAgentAllow := none, sender := "+1222", verboseDefault := false }
        (fun _ => "done") {} [.txt "hello there", .dir (.elevated (some "off"))]).agentCalled
      = true ∧
    (processMessage
        { elevatedEnabled := true, elevatedGlobalAllow := ["+1222"],
          elevatedAgentAllow := none, sender := "+1222", verboseDefault := false }
        (fun _ => "done") {} [.txt "hello there", .dir (.elevated (some "off"))]).payloads
      = ["done"] := by
  refine ⟨by decide, by decide, by decide, by decide, by decide⟩

/-- Claim C9 (amended): when a message mixes directive fragments with
residual free text, the fragments are stripped from the residual forwarded
for the agent turn and the agent reply is delivered, while the session entry
is left unchanged (inline directives are not persisted; an inline think level
only steers that run); a directive-only message executes all directives in
textual order and delivers their acknowledgements without an agent turn. -/
theorem directives_stripped_and_agent_reply_delivered
    (ctx : DirectiveCtx) (agent : String → String) (entry : SessionEntry)
    (segs : List MsgSeg) :
    (residualOf segs ≠ "" →
      (processMessage ctx agent entry segs).entry = entry ∧
      (processMessage ctx agent entry segs).agentCalled = true ∧
      (processMessage ctx agent entry segs).payloads = [agent (residualOf segs)] ∧
      (processMessage ctx agent entry segs).residualText = residualOf segs ∧
      (processMessage ctx agent entry segs).runThink = inlineThinkOf (segs.filterMap segDir)) ∧
    (residualOf segs = "" →
      (processMessage ctx agent entry segs).agentCalled = false ∧
      (processMessage ctx agent entry segs).entry =
        (execDirectives ctx entry (segs.filterMap segDir)).1 ∧
      (processMessage ctx agent entry segs).payloads =
        (execDirectives ctx entry (segs.filterMap segDir)).2) := by
  constructor
  · intro h
    refine ⟨?_, ?_, ?_, ?_, ?_⟩ <;> simp [processMessage, h]
  · intro h
    refine ⟨?_, ?_, ?_⟩ <;> simp [processMessage, h]

/-- Witness for the amended C9: a message with free text around an inline
`/think:high` runs the agent on the stripped residual, applies the think
level to the run, and leaves the entry unchanged. -/
theorem directives_stripped_and_agent_reply_delivered_witness :
    (residualOf [.txt "please sync", .dir (.think (some "high")), .txt "now"] ≠ "" →
      (processMessage {} (fun _ => "done") {}
          [.txt "please sync", .dir (.think (some "high")), .txt "now"]).entry = {} ∧
      (processMessage {} (fun _ => "done") {}
          [.txt "please sync", .dir (.think (some "high")), .txt "now"]).agentCalled = true ∧
      (processMessage {} (fun _ => "done") {}
          [.txt "please sync", .dir (.think (some "high")), .txt "now"]).payloads =
        [(fun _ => "done") (residualOf [.txt "please sync", .dir (.think (some "high")), .txt "now"])] ∧
      (processMessage {} (fun _ => "done") {}
          [.txt "please sync", .dir (.think (some "high")), .txt "now"]).residualText =
        residualOf [.txt "please sync", .dir (.think (some "high")), .txt "now"] ∧
      (processMessage {} (fun _ => "done") {}
          [.txt "please sync", .dir (.think (some "high")), .txt "now"]).runThink =
        inlineThinkOf ([MsgSeg.txt "please sync", .dir (.think (some "high")),
          .txt "now"].filterMap segDir)) ∧
    (residualOf [.txt "please sync", .dir (.think (some "high")), .txt "now"] = "" →
      (processMessage {} (fun _ => "done") {}
          [.txt "please sync", .dir (.think (some "high")), .txt "now"]).agentCalled = false ∧
      (processMessage {} (fun _ => "done") {}
          [.txt "please sync", .dir (.think (some "high")), .txt "now"]).entry =
        (execDirectives {} {} ([MsgSeg.txt "please sync", .dir (.think (some "high")),
          .txt "now"].filterMap segDir)).1 ∧
      (processMessage {} (fun _ => "done") {}
          [.txt "please sync", .dir (.think (some "high")), .txt "now"]).payloads =
        (execDirectives {} {} ([MsgSeg.txt "please sync", .dir (.think (some "high")),
          .txt "now"].filterMap segDir)).2) :=
  directives_stripped_and_agent_reply_delivered {} (fun _ => "done") {}
    [.txt "please sync", .dir (.think (some "high")), .txt "now"]
